import Mathlib

/-!
Shallow embedding of the 5G-Stability KPI pipeline core:
data_loader.py, data_cleaner.py, data_parser.py, kpi_calculator.py and
evaluator.py, together with the pipeline wiring of ProcessingThread.run.

Modelling conventions:
- a numeric operand is an `Option ℚ`; `none` stands for both Python `None`
  and the pandas NaN missing marker, `some q` for a finite float;
- floats are modelled by exact rationals;
- a pandas cell is a `Cell` (raw string, number, or missing);
- statuses are the literal strings "PASS", "FAIL", "N/A" used by the code.
-/

/-- A pandas cell: a raw string, a finite number, or the missing marker
(NaN / None). -/
inductive Cell where
  | str (s : String) : Cell
  | num (q : ℚ) : Cell
  | missing : Cell
  deriving DecidableEq

/-- A calendar date with time of day already discarded, as produced by
Python `datetime.date`. -/
structure Date where
  year : Nat
  month : Nat
  day : Nat
  deriving DecidableEq

/-- models/data_models.py `KPIValues`: five optional KPI values. -/
structure KPIValues where
  sgnb_add_success_rate : Option ℚ
  sgnb_drop_rate : Option ℚ
  dl_user_throughput : Option ℚ
  ul_user_throughput : Option ℚ
  dl_spectrum_efficiency : Option ℚ
  deriving DecidableEq

/-- models/data_models.py `KPIStatus`: five per-metric status strings. -/
structure KPIStatus where
  sgnb_add_success_rate : String
  sgnb_drop_rate : String
  dl_user_throughput : String
  ul_user_throughput : String
  dl_spectrum_efficiency : String
  deriving DecidableEq

/-- models/data_models.py `TowerReport`. -/
structure TowerReport where
  tower_id : String
  report_date : Date
  kpi_values : KPIValues
  kpi_status : KPIStatus
  overall_status : String
  deriving DecidableEq

/-- utils/constants.py `KPIThreshold.SGNB_ADD_SUCCESS_RATE_MIN`. -/
def SGNB_ADD_SUCCESS_RATE_MIN : ℚ := 95

/-- utils/constants.py `KPIThreshold.SGNB_DROP_RATE_MAX`. -/
def SGNB_DROP_RATE_MAX : ℚ := 5

/-- utils/constants.py `KPIThreshold.DL_THROUGHPUT_MIN`. -/
def DL_THROUGHPUT_MIN : ℚ := 5

/-- utils/constants.py `KPIThreshold.UL_THROUGHPUT_MIN` (= 1.5). -/
def UL_THROUGHPUT_MIN : ℚ := 3 / 2

/-- utils/constants.py `KPIThreshold.DL_SPECTRUM_EFFICIENCY_MIN` (= 0.9). -/
def DL_SPECTRUM_EFFICIENCY_MIN : ℚ := 9 / 10

/-- core/kpi_calculator.py `KPICalculator.safe_divide`: returns `None` when
`pd.isna(num) or pd.isna(den) or den == 0`, otherwise `(num / den) * multiply`.
The source gives `multiply` the default value 1.0; callers that omit it are
embedded passing 1 explicitly. -/
def safe_divide (num den : Option ℚ) (multiply : ℚ) : Option ℚ :=
  match num, den with
  | some n, some d => if d = 0 then none else some (n / d * multiply)
  | _, _ => none

/-- core/evaluator.py `Evaluator.evaluate_kpi`: "N/A" for a missing value,
else compare against the threshold; any compare string other than ">="
takes the else branch (the "<=" comparison). -/
def evaluate_kpi (value : Option ℚ) (threshold : ℚ) (compare : String) : String :=
  match value with
  | none => "N/A"
  | some v =>
    if compare = ">=" then
      if threshold ≤ v then "PASS" else "FAIL"
    else
      if v ≤ threshold then "PASS" else "FAIL"

/-- core/evaluator.py `Evaluator.evaluate_all`: evaluate the five KPIs
against the fixed thresholds and derive the overall status
(`"FAIL" if "FAIL" in statuses else "PASS"`). -/
def evaluate_all (kpi_values : KPIValues) : KPIStatus × String :=
  let status : KPIStatus :=
    ⟨evaluate_kpi kpi_values.sgnb_add_success_rate SGNB_ADD_SUCCESS_RATE_MIN ">=",
     evaluate_kpi kpi_values.sgnb_drop_rate SGNB_DROP_RATE_MAX "<=",
     evaluate_kpi kpi_values.dl_user_throughput DL_THROUGHPUT_MIN ">=",
     evaluate_kpi kpi_values.ul_user_throughput UL_THROUGHPUT_MIN ">=",
     evaluate_kpi kpi_values.dl_spectrum_efficiency DL_SPECTRUM_EFFICIENCY_MIN ">="⟩
  let statuses : List String :=
    [status.sgnb_add_success_rate,
     status.sgnb_drop_rate,
     status.dl_user_throughput,
     status.ul_user_throughput,
     status.dl_spectrum_efficiency]
  let overall := if statuses.contains "FAIL" then "FAIL" else "PASS"
  (status, overall)

/-- The five component statuses of a `KPIStatus`, in the order the code
builds its `statuses` list. -/
def status_list (s : KPIStatus) : List String :=
  [s.sgnb_add_success_rate, s.sgnb_drop_rate, s.dl_user_throughput,
   s.ul_user_throughput, s.dl_spectrum_efficiency]

/-- C1: safe_divide returns the missing marker (None) iff the denominator is
zero or either operand is missing/NaN; otherwise it returns exactly
(num / den) * scale. -/
theorem safe_divide_spec (num den : Option ℚ) (multiply : ℚ) :
    (safe_divide num den multiply = none ↔
      num = none ∨ den = none ∨ den = some 0) ∧
    (∀ n d : ℚ, num = some n → den = some d → d ≠ 0 →
      safe_divide num den multiply = some (n / d * multiply)) := by
  constructor
  · cases num with
    | none => simp [safe_divide]
    | some n =>
      cases den with
      | none => simp [safe_divide]
      | some d =>
        by_cases hd : d = 0 <;> simp [safe_divide, hd]
  · rintro n d rfl rfl hd
    simp [safe_divide, hd]

/-- Witness for C1: safe_divide at num = 6, den = 3, scale = 100 yields 200. -/
theorem safe_divide_spec_witness :
    safe_divide (some 6) (some 3) 100 = some 200 := by
  have h := (safe_divide_spec (some 6) (some 3) 100).2 6 3 rfl rfl (by norm_num)
  rw [h]
  norm_num

/-- C3: for direction ">=" or "<=", evaluate_kpi is "N/A" on a missing value;
on a present value it is "PASS" exactly when the directed comparison against
the threshold holds and "FAIL" otherwise; the boundary value = threshold
yields "PASS" for both directions. -/
theorem evaluate_kpi_spec (value : Option ℚ) (threshold : ℚ) (compare : String)
    (hc : compare = ">=" ∨ compare = "<=") :
    evaluate_kpi none threshold compare = "N/A" ∧
    (∀ v : ℚ, value = some v →
      (evaluate_kpi value threshold compare = "PASS" ↔
        (compare = ">=" ∧ threshold ≤ v) ∨ (compare = "<=" ∧ v ≤ threshold)) ∧
      (evaluate_kpi value threshold compare = "PASS" ∨
        evaluate_kpi value threshold compare = "FAIL")) ∧
    evaluate_kpi (some threshold) threshold compare = "PASS" := by
  rcases hc with rfl | rfl
  · refine ⟨rfl, ?_, ?_⟩
    · rintro v rfl
      constructor
      · by_cases h : threshold ≤ v <;> simp [evaluate_kpi, h]
      · by_cases h : threshold ≤ v <;> simp [evaluate_kpi, h]
    · simp [evaluate_kpi]
  · refine ⟨rfl, ?_, ?_⟩
    · rintro v rfl
      constructor
      · by_cases h : v ≤ threshold <;> simp [evaluate_kpi, h]
      · by_cases h : v ≤ threshold <;> simp [evaluate_kpi, h]
    · simp [evaluate_kpi]

/-- Witness for C3: at the boundary value 95 with direction ">=",
evaluate_kpi returns "PASS". -/
theorem evaluate_kpi_spec_witness :
    evaluate_kpi (some 95) 95 ">=" = "PASS" :=
  (evaluate_kpi_spec (some 95) 95 ">=" (Or.inl rfl)).2.2

/-- C10: any compare argument other than ">=" (such as "<", ">", "==") takes
the else branch of evaluate_kpi and behaves exactly as "<=" would: "PASS"
iff value <= threshold, else "FAIL"; the operator is never rejected. -/
theorem evaluate_kpi_default_compare (v threshold : ℚ) (compare : String)
    (hc : compare ≠ ">=") :
    evaluate_kpi (some v) threshold compare =
      if v ≤ threshold then "PASS" else "FAIL" := by
  simp [evaluate_kpi, hc]

/-- Witness for C10: compare "<" with value 2 and threshold 3 gives "PASS". -/
theorem evaluate_kpi_default_compare_witness :
    evaluate_kpi (some 2) 3 "<" = "PASS" := by
  rw [evaluate_kpi_default_compare 2 3 "<" (by decide)]
  norm_num

/-- C2: the overall status of evaluate_all is "FAIL" iff at least one of the
five component statuses is "FAIL", and otherwise it is "PASS"; five missing
values yield five "N/A" statuses and overall "PASS". -/
theorem evaluate_all_overall (kpi_values : KPIValues) :
    ((evaluate_all kpi_values).2 = "FAIL" ↔
      "FAIL" ∈ status_list (evaluate_all kpi_values).1) ∧
    ((evaluate_all kpi_values).2 = "FAIL" ∨ (evaluate_all kpi_values).2 = "PASS") ∧
    evaluate_all ⟨none, none, none, none, none⟩ =
      (⟨"N/A", "N/A", "N/A", "N/A", "N/A"⟩, "PASS") := by
  refine ⟨?_, ?_, by decide⟩
  · unfold evaluate_all status_list
    by_cases h :
        [evaluate_kpi kpi_values.sgnb_add_success_rate SGNB_ADD_SUCCESS_RATE_MIN ">=",
         evaluate_kpi kpi_values.sgnb_drop_rate SGNB_DROP_RATE_MAX "<=",
         evaluate_kpi kpi_values.dl_user_throughput DL_THROUGHPUT_MIN ">=",
         evaluate_kpi kpi_values.ul_user_throughput UL_THROUGHPUT_MIN ">=",
         evaluate_kpi kpi_values.dl_spectrum_efficiency DL_SPECTRUM_EFFICIENCY_MIN ">="].contains
          "FAIL" = true <;>
      simp_all [List.contains, List.elem_iff]
  · unfold evaluate_all
    by_cases h :
        [evaluate_kpi kpi_values.sgnb_add_success_rate SGNB_ADD_SUCCESS_RATE_MIN ">=",
         evaluate_kpi kpi_values.sgnb_drop_rate SGNB_DROP_RATE_MAX "<=",
         evaluate_kpi kpi_values.dl_user_throughput DL_THROUGHPUT_MIN ">=",
         evaluate_kpi kpi_values.ul_user_throughput UL_THROUGHPUT_MIN ">=",
         evaluate_kpi kpi_values.dl_spectrum_efficiency DL_SPECTRUM_EFFICIENCY_MIN ">="].contains
          "FAIL" = true <;>
      simp_all

/-- One member of a ZIP archive: its file name and, when it is a tabular
file, its parsed rows (pd.read_csv with the first row as header). -/
structure ZipEntry where
  name : String
  rows : List (List Cell)
  deriving DecidableEq

/-- Embeds the Python test `f.endswith(".csv") and not f.endswith("_KPI(Counter).csv")`
used by core/data_loader.py to select eligible files. -/
def is_valid_csv (name : String) : Bool :=
  ".csv".data.isSuffixOf name.data &&
    !("_KPI(Counter).csv".data.isSuffixOf name.data)

/-- The eligible files of an archive, in file-enumeration order
(`zip_ref.namelist()` order, preserved by the list comprehension). -/
def eligible_files (zip : List ZipEntry) : List ZipEntry :=
  zip.filter (fun e => is_valid_csv e.name)

/-- core/data_loader.py `DataLoader.load_from_zip`: keep the eligible CSV
files, raise ValueError when none remain, else concatenate their rows in
enumeration order (pd.concat with ignore_index). -/
def load_from_zip (zip : List ZipEntry) : Except String (List (List Cell)) :=
  let csv_files := eligible_files zip
  if csv_files.isEmpty then
    Except.error "No valid CSV files found in ZIP archive"
  else
    Except.ok ((csv_files.map ZipEntry.rows).flatten)

/-- C7: load_from_zip raises the ingestion error exactly when the archive has
zero eligible tabular files; an archive whose only entry is named
"X_KPI(Counter).csv" raises it, and otherwise the eligible files' rows are
concatenated in file-enumeration order. -/
theorem load_from_zip_spec (zip : List ZipEntry) :
    (eligible_files zip = [] →
      load_from_zip zip = Except.error "No valid CSV files found in ZIP archive") ∧
    (eligible_files zip ≠ [] →
      load_from_zip zip =
        Except.ok (((eligible_files zip).map ZipEntry.rows).flatten)) ∧
    (∀ rows : List (List Cell),
      load_from_zip [⟨"X_KPI(Counter).csv", rows⟩] =
        Except.error "No valid CSV files found in ZIP archive") := by
  refine ⟨?_, ?_, ?_⟩
  · intro h
    simp [load_from_zip, h]
  · intro h
    simp [load_from_zip, List.isEmpty_iff, h]
  · intro rows
    rfl

/-- Witness for C7: the empty archive and a lone excluded file both raise,
and a single eligible file's rows pass through. -/
theorem load_from_zip_spec_witness :
    load_from_zip [] = Except.error "No valid CSV files found in ZIP archive" ∧
    load_from_zip [⟨"a.csv", [[Cell.num 1]]⟩] = Except.ok [[Cell.num 1]] ∧
    load_from_zip [⟨"X_KPI(Counter).csv", []⟩] =
      Except.error "No valid CSV files found in ZIP archive" :=
  ⟨(load_from_zip_spec []).1 rfl,
   by
     have h := (load_from_zip_spec [⟨"a.csv", [[Cell.num 1]]⟩]).2.1 (by decide)
     rw [h]
     rfl,
   (load_from_zip_spec [⟨"X_KPI(Counter).csv", []⟩]).2.2 []⟩

/-- How pandas prints a cell under astype(str): strings pass through, numbers
print themselves, and NaN prints as "nan" (which fails numeric coercion and
so stays missing). -/
def cell_to_str : Cell → String
  | Cell.str s => s
  | Cell.num q => toString q
  | Cell.missing => "nan"

/-- Embeds the two str.replace calls of core/data_cleaner.py: remove every
occurrence of the percent sign and the comma. -/
def strip_format (s : String) : String :=
  ⟨s.data.filter (fun c => !(c = '%' || c = ','))⟩

/-- ASCII decimal digit test. -/
def is_digit_char (c : Char) : Bool := '0' ≤ c && c ≤ '9'

/-- Numeric value of a decimal digit character. -/
def digit_val (c : Char) : Nat := c.toNat - '0'.toNat

/-- Value of a string of decimal digits. -/
def nat_val (l : List Char) : Nat := l.foldl (fun acc c => 10 * acc + digit_val c) 0

/-- Unsigned decimal literal: digits, optionally followed by a point and
digits, with at least one digit overall. -/
def parse_unsigned (l : List Char) : Option ℚ :=
  let intPart := l.takeWhile is_digit_char
  match l.dropWhile is_digit_char with
  | [] => if intPart.isEmpty then none else some (nat_val intPart : ℚ)
  | '.' :: frac =>
    if frac.all is_digit_char && !(intPart.isEmpty && frac.isEmpty) then
      some ((nat_val intPart : ℚ) + (nat_val frac : ℚ) / (10 : ℚ) ^ frac.length)
    else none
  | _ => none

/-- Embeds `pd.to_numeric(_, errors="coerce")` on one cell string: an
optionally signed decimal literal parses to its exact rational value, and
anything else coerces to the missing marker (none). -/
def to_numeric (s : String) : Option ℚ :=
  match s.data with
  | '-' :: r => (parse_unsigned r).map (fun q => -q)
  | '+' :: r => parse_unsigned r
  | l => parse_unsigned l

/-- core/data_cleaner.py per-cell behaviour: stringify, strip '%' and ',',
turn the empty string into the missing marker, then coerce to a number with
invalid values becoming the missing marker. -/
def clean_cell (c : Cell) : Cell :=
  let s := strip_format (cell_to_str c)
  if s = "" then Cell.missing
  else
    match to_numeric s with
    | some q => Cell.num q
    | none => Cell.missing

/-- One row of `DataCleaner.clean_dataframe`: the cell at column index `i`
is cleaned when `i` is a designated numeric column and `i < ncols`
(the source's `col_idx < len(df_clean.columns)` guard); other cells are
untouched. `i0` is the index of the first cell of the remaining row. -/
def clean_row (numeric_columns : List Nat) (ncols : Nat) : Nat → List Cell → List Cell
  | _, [] => []
  | i0, c :: rest =>
    (if numeric_columns.contains i0 && decide (i0 < ncols) then clean_cell c else c) ::
      clean_row numeric_columns ncols (i0 + 1) rest

/-- core/data_cleaner.py `DataCleaner.clean_dataframe` on a table whose
column count is `ncols` (pandas `len(df.columns)`): returns a new table with
every designated in-range column cleaned cell-wise. -/
def clean_dataframe (ncols : Nat) (df : List (List Cell))
    (numeric_columns : List Nat) : List (List Cell) :=
  df.map (clean_row numeric_columns ncols 0)

/-- Recognizer for residual string cells. -/
def is_str_cell : Cell → Bool
  | Cell.str _ => true
  | _ => false

/-- clean_row acts cell-wise: the cell at position c of the output is the
input cell, cleaned iff its absolute column index is designated and in
range. -/
theorem clean_row_get (numeric_columns : List Nat) (ncols : Nat) :
    ∀ (row : List Cell) (i0 c : Nat),
      (clean_row numeric_columns ncols i0 row).get? c =
        (row.get? c).map
          (fun cell =>
            if numeric_columns.contains (i0 + c) && decide (i0 + c < ncols) then
              clean_cell cell
            else cell) := by
  intro row
  induction row with
  | nil => intro i0 c; simp [clean_row]
  | cons x rest ih =>
    intro i0 c
    cases c with
    | zero => simp [clean_row]
    | succ n =>
      have harith : i0 + 1 + n = i0 + (n + 1) := by omega
      have ih' := ih (i0 + 1) n
      rw [harith] at ih'
      simpa [clean_row] using ih'

/-- clean_cell never returns a string cell. -/
theorem clean_cell_not_str (c : Cell) : is_str_cell (clean_cell c) = false := by
  unfold clean_cell
  by_cases h : strip_format (cell_to_str c) = ""
  · simp [h, is_str_cell]
  · simp only [h, if_false]
    cases hn : to_numeric (strip_format (cell_to_str c)) <;> simp [is_str_cell]

/-- C9: after clean_dataframe, every cell of a designated in-range column is
the cleaned image of the input cell and is never a residual string; a cell
whose stripped text cannot be numerically coerced becomes the missing
marker. -/
theorem clean_dataframe_spec (ncols : Nat) (df : List (List Cell))
    (numeric_columns : List Nat) (c : Nat)
    (hc : numeric_columns.contains c = true) (hlt : c < ncols) :
    (∀ row ∈ df,
      (clean_row numeric_columns ncols 0 row).get? c =
        (row.get? c).map clean_cell) ∧
    (∀ row ∈ clean_dataframe ncols df numeric_columns,
      ∀ cell, row.get? c = some cell → is_str_cell cell = false) ∧
    (∀ cell : Cell, to_numeric (strip_format (cell_to_str cell)) = none →
      clean_cell cell = Cell.missing) := by
  have hget : ∀ row : List Cell,
      (clean_row numeric_columns ncols 0 row).get? c =
        (row.get? c).map clean_cell := by
    intro row
    rw [clean_row_get]
    have h0 : (0 : Nat) + c = c := by omega
    have hmem : c ∈ numeric_columns := by
      simpa [List.contains, List.elem_iff] using hc
    simp [h0, hmem, hlt]
  refine ⟨fun row _ => hget row, ?_, ?_⟩
  · intro row hrow cell hcell
    rcases List.mem_map.mp hrow with ⟨row0, _, rfl⟩
    rw [hget row0] at hcell
    rcases Option.map_eq_some'.mp hcell with ⟨cell0, _, rfl⟩
    exact clean_cell_not_str cell0
  · intro cell hfail
    unfold clean_cell
    by_cases h : strip_format (cell_to_str cell) = ""
    · simp [h]
    · simp [h, hfail]

/-- Witness for C9: a percent-formatted cell cleans to its number, an
alphabetic cell cleans to missing, and a one-row table keeps no residual
string in the designated column. -/
theorem clean_dataframe_spec_witness :
    ((clean_row [0] 1 0 [Cell.str "12%"]).get? 0 =
      ([Cell.str "12%"].get? 0).map clean_cell) ∧
    clean_cell (Cell.str "abc") = Cell.missing :=
  ⟨(clean_dataframe_spec 1 [[Cell.str "12%"]] [0] 0 (by decide) (by decide)).1
      [Cell.str "12%"] (by decide),
   (clean_dataframe_spec 1 [] [0] 0 (by decide) (by decide)).2.2
      (Cell.str "abc") (by decide)⟩

/-- Uppercase ASCII letter, the regex class [A-Z] of TOWERID_PATTERN. -/
def is_upper_char (c : Char) : Bool := 'A' ≤ c && c ≤ 'Z'

/-- One maximal nonempty run of characters satisfying p, with the remainder.
For the runs of TOWERID_PATTERN the greedy maximal run is exact: a shorter
run would end at a run character, which is neither '-' nor the end of the
pattern, so regex backtracking inside a run can never help. -/
def match_run (p : Char → Bool) (l : List Char) : Option (List Char × List Char) :=
  if (l.takeWhile p).isEmpty then none
  else some (l.takeWhile p, l.dropWhile p)

/-- One literal '-' of TOWERID_PATTERN. -/
def match_dash (l : List Char) : Option (List Char) :=
  match l with
  | c :: r => if c = '-' then some r else none
  | [] => none

/-- The regex TOWERID_PATTERN = [A-Z]+-[A-Z]+-[A-Z]+-\d+ matched at the head
of l (not anchored at the end); returns the matched characters. -/
def match_at (l : List Char) : Option (List Char) :=
  match match_run is_upper_char l with
  | none => none
  | some (u1, r1) =>
    match match_dash r1 with
    | none => none
    | some r1' =>
      match match_run is_upper_char r1' with
      | none => none
      | some (u2, r2) =>
        match match_dash r2 with
        | none => none
        | some r2' =>
          match match_run is_upper_char r2' with
          | none => none
          | some (u3, r3) =>
            match match_dash r3 with
            | none => none
            | some r3' =>
              match match_run is_digit_char r3' with
              | none => none
              | some (d, _) =>
                some (u1 ++ '-' :: (u2 ++ '-' :: (u3 ++ '-' :: d)))

/-- re.search: try the pattern at successive start positions, leftmost
match wins. -/
def search_pattern : List Char → Option (List Char)
  | [] => none
  | c :: t =>
    match match_at (c :: t) with
    | some m => some m
    | none => search_pattern t

/-- core/data_parser.py `DataParser.extract_tower_id`: first regex match of
TOWERID_PATTERN anywhere in the string, or the sentinel "UNKNOWN". -/
def extract_tower_id (managed_element_name : String) : String :=
  match search_pattern managed_element_name.data with
  | some m => ⟨m⟩
  | none => "UNKNOWN"

/-- The shape of every successful TOWERID_PATTERN match: three nonempty
uppercase runs and one nonempty digit run, separated by dashes. -/
def good_shape (m : List Char) : Prop :=
  ∃ u1 u2 u3 d : List Char,
    m = u1 ++ '-' :: (u2 ++ '-' :: (u3 ++ '-' :: d)) ∧
    u1 ≠ [] ∧ u2 ≠ [] ∧ u3 ≠ [] ∧ d ≠ [] ∧
    (∀ c ∈ u1, is_upper_char c = true) ∧
    (∀ c ∈ u2, is_upper_char c = true) ∧
    (∀ c ∈ u3, is_upper_char c = true) ∧
    (∀ c ∈ d, is_digit_char c = true)

/-- Inversion for match_run. -/
theorem match_run_eq (p : Char → Bool) (l u r : List Char)
    (h : match_run p l = some (u, r)) :
    u = l.takeWhile p ∧ r = l.dropWhile p ∧ u ≠ [] ∧ ∀ c ∈ u, p c = true := by
  unfold match_run at h
  by_cases he : (l.takeWhile p).isEmpty = true
  · simp [he] at h
  · rw [if_neg he] at h
    simp only [Option.some.injEq, Prod.mk.injEq] at h
    obtain ⟨hu, hr⟩ := h
    subst hu
    subst hr
    refine ⟨rfl, rfl, ?_, ?_⟩
    · simpa [List.isEmpty_iff] using he
    · intro c hc
      exact List.mem_takeWhile_imp hc

/-- Inversion for match_dash. -/
theorem match_dash_eq (l r : List Char) (h : match_dash l = some r) :
    l = '-' :: r := by
  cases l with
  | nil => simp [match_dash] at h
  | cons c t =>
    by_cases hc : c = '-'
    · subst hc
      simp [match_dash] at h
      rw [h]
    · simp [match_dash, hc] at h

/-- Every successful match of TOWERID_PATTERN has the run-dash shape. -/
theorem match_at_shape (l m : List Char) (h : match_at l = some m) :
    good_shape m := by
  unfold match_at at h
  cases h1 : match_run is_upper_char l with
  | none => simp [h1] at h
  | some p1 =>
    obtain ⟨u1, r1⟩ := p1
    simp only [h1] at h
    cases h2 : match_dash r1 with
    | none => simp [h2] at h
    | some r1' =>
      simp only [h2] at h
      cases h3 : match_run is_upper_char r1' with
      | none => simp [h3] at h
      | some p2 =>
        obtain ⟨u2, r2⟩ := p2
        simp only [h3] at h
        cases h4 : match_dash r2 with
        | none => simp [h4] at h
        | some r2' =>
          simp only [h4] at h
          cases h5 : match_run is_upper_char r2' with
          | none => simp [h5] at h
          | some p3 =>
            obtain ⟨u3, r3⟩ := p3
            simp only [h5] at h
            cases h6 : match_dash r3 with
            | none => simp [h6] at h
            | some r3' =>
              simp only [h6] at h
              cases h7 : match_run is_digit_char r3' with
              | none => simp [h7] at h
              | some p4 =>
                obtain ⟨d, rest⟩ := p4
                simp only [h7, Option.some.injEq] at h
                obtain ⟨-, -, hu1, hp1⟩ := match_run_eq _ _ _ _ h1
                obtain ⟨-, -, hu2, hp2⟩ := match_run_eq _ _ _ _ h3
                obtain ⟨-, -, hu3, hp3⟩ := match_run_eq _ _ _ _ h5
                obtain ⟨-, -, hd, hpd⟩ := match_run_eq _ _ _ _ h7
                exact ⟨u1, u2, u3, d, h.symm, hu1, hu2, hu3, hd,
                       hp1, hp2, hp3, hpd⟩

/-- takeWhile and dropWhile across a satisfied run followed by a stopper. -/
theorem takeWhile_append_stop (p : Char → Bool) (u : List Char) (x : Char)
    (r : List Char) (hu : ∀ c ∈ u, p c = true) (hx : p x = false) :
    (u ++ x :: r).takeWhile p = u ∧ (u ++ x :: r).dropWhile p = x :: r := by
  induction u with
  | nil => simp [List.takeWhile_cons, List.dropWhile_cons, hx]
  | cons a t ih =>
    have ha : p a = true := hu a (by simp)
    have ih' := ih (fun c hc => hu c (by simp [hc]))
    simp [List.takeWhile_cons, List.dropWhile_cons, ha, ih'.1, ih'.2]

/-- takeWhile and dropWhile on an entirely satisfied list. -/
theorem takeWhile_all (p : Char → Bool) (d : List Char)
    (hd : ∀ c ∈ d, p c = true) :
    d.takeWhile p = d ∧ d.dropWhile p = [] := by
  induction d with
  | nil => simp
  | cons a t ih =>
    have ha : p a = true := hd a (by simp)
    have ih' := ih (fun c hc => hd c (by simp [hc]))
    simp [List.takeWhile_cons, List.dropWhile_cons, ha, ih'.1, ih'.2]

/-- A string of the run-dash shape matches TOWERID_PATTERN in full at its
own head. -/
theorem match_at_self (m : List Char) (hs : good_shape m) :
    match_at m = some m := by
  obtain ⟨u1, u2, u3, d, rfl, h1, h2, h3, h4, hp1, hp2, hp3, hpd⟩ := hs
  have hdash : is_upper_char '-' = false := by decide
  have t1 := takeWhile_append_stop is_upper_char u1 '-'
    (u2 ++ '-' :: (u3 ++ '-' :: d)) hp1 hdash
  have t2 := takeWhile_append_stop is_upper_char u2 '-' (u3 ++ '-' :: d) hp2 hdash
  have t3 := takeWhile_append_stop is_upper_char u3 '-' d hp3 hdash
  have t4 := takeWhile_all is_digit_char d hpd
  have m1 : match_run is_upper_char (u1 ++ '-' :: (u2 ++ '-' :: (u3 ++ '-' :: d))) =
      some (u1, '-' :: (u2 ++ '-' :: (u3 ++ '-' :: d))) := by
    unfold match_run
    rw [t1.1, t1.2]
    simp [List.isEmpty_iff, h1]
  have m2 : match_run is_upper_char (u2 ++ '-' :: (u3 ++ '-' :: d)) =
      some (u2, '-' :: (u3 ++ '-' :: d)) := by
    unfold match_run
    rw [t2.1, t2.2]
    simp [List.isEmpty_iff, h2]
  have m3 : match_run is_upper_char (u3 ++ '-' :: d) = some (u3, '-' :: d) := by
    unfold match_run
    rw [t3.1, t3.2]
    simp [List.isEmpty_iff, h3]
  have m4 : match_run is_digit_char d = some (d, []) := by
    unfold match_run
    rw [t4.1, t4.2]
    simp [List.isEmpty_iff, h4]
  have mdash : ∀ X : List Char, match_dash ('-' :: X) = some X := by
    intro X
    simp [match_dash]
  unfold match_at
  rw [m1]
  simp only [mdash, m2, m3, m4]

/-- A successful search result comes from a successful pattern match at some
suffix of the input. -/
theorem search_pattern_shape (l m : List Char) (h : search_pattern l = some m) :
    ∃ suffix, match_at suffix = some m := by
  induction l with
  | nil => simp [search_pattern] at h
  | cons c t ih =>
    unfold search_pattern at h
    cases hm : match_at (c :: t) with
    | some m0 =>
      rw [hm] at h
      simp only [Option.some.injEq] at h
      exact ⟨c :: t, by rw [hm, h]⟩
    | none =>
      rw [hm] at h
      exact ih h

/-- Searching inside a full-shape match returns the match itself (the match
starts at position 0, and leftmost wins). -/
theorem search_pattern_self (m : List Char) (hs : good_shape m) :
    search_pattern m = some m := by
  have hma := match_at_self m hs
  have hne : m ≠ [] := by
    obtain ⟨u1, u2, u3, d, rfl, h1, -⟩ := hs
    cases u1 with
    | nil => exact absurd rfl h1
    | cons a t => simp
  cases m with
  | nil => exact absurd rfl hne
  | cons c t =>
    unfold search_pattern
    rw [hma]

/-- C8: extract_tower_id is idempotent: re-running it on its own output
returns that output unchanged, both on a successfully extracted substring
and on the "UNKNOWN" sentinel. -/
theorem extract_tower_id_idem (s : String) :
    extract_tower_id (extract_tower_id s) = extract_tower_id s ∧
    extract_tower_id "UNKNOWN" = "UNKNOWN" := by
  refine ⟨?_, by decide⟩
  unfold extract_tower_id
  cases hs : search_pattern s.data with
  | none => decide
  | some m =>
    have hshape : good_shape m := by
      obtain ⟨suffix, hsuf⟩ := search_pattern_shape s.data m hs
      exact match_at_shape suffix m hsuf
    have hself : search_pattern m = some m := search_pattern_self m hshape
    have hdata : (⟨m⟩ : String).data = m := rfl
    rw [hdata, hself]

/-- Candidate parses, in regex alternation order, of the strptime directive
%m (pattern 1[0-2]|0[1-9]|[1-9]): one or two digits, value 1 to 12. -/
def month_cands (l : List Char) : List (Nat × List Char) :=
  (match l with
   | '1' :: c :: r => if '0' ≤ c && c ≤ '2' then [(10 + digit_val c, r)] else []
   | _ => []) ++
  (match l with
   | '0' :: c :: r => if '1' ≤ c && c ≤ '9' then [(digit_val c, r)] else []
   | _ => []) ++
  (match l with
   | c :: r => if '1' ≤ c && c ≤ '9' then [(digit_val c, r)] else []
   | _ => [])

/-- strptime directive %d (pattern 3[01]|[12]\d|0[1-9]|[1-9]): value 1 to 31. -/
def day_cands (l : List Char) : List (Nat × List Char) :=
  (match l with
   | '3' :: c :: r => if c = '0' || c = '1' then [(30 + digit_val c, r)] else []
   | _ => []) ++
  (match l with
   | c :: c2 :: r =>
     if ('1' ≤ c && c ≤ '2') && is_digit_char c2 then
       [(10 * digit_val c + digit_val c2, r)]
     else []
   | _ => []) ++
  (match l with
   | '0' :: c :: r => if '1' ≤ c && c ≤ '9' then [(digit_val c, r)] else []
   | _ => []) ++
  (match l with
   | c :: r => if '1' ≤ c && c ≤ '9' then [(digit_val c, r)] else []
   | _ => [])

/-- strptime directive %Y (pattern of exactly four digits). -/
def year_cands (l : List Char) : List (Nat × List Char) :=
  match l with
  | a :: b :: c :: d :: r =>
    if is_digit_char a && is_digit_char b && is_digit_char c && is_digit_char d then
      [(1000 * digit_val a + 100 * digit_val b + 10 * digit_val c + digit_val d, r)]
    else []
  | _ => []

/-- strptime directive %H (pattern 2[0-3]|[0-1]\d|\d): value 0 to 23. -/
def hour_cands (l : List Char) : List (Nat × List Char) :=
  (match l with
   | '2' :: c :: r => if '0' ≤ c && c ≤ '3' then [(20 + digit_val c, r)] else []
   | _ => []) ++
  (match l with
   | c :: c2 :: r =>
     if (c = '0' || c = '1') && is_digit_char c2 then
       [(10 * digit_val c + digit_val c2, r)]
     else []
   | _ => []) ++
  (match l with
   | c :: r => if is_digit_char c then [(digit_val c, r)] else []
   | _ => [])

/-- strptime directive %M (pattern [0-5]\d|\d): value 0 to 59. -/
def minute_cands (l : List Char) : List (Nat × List Char) :=
  (match l with
   | c :: c2 :: r =>
     if ('0' ≤ c && c ≤ '5') && is_digit_char c2 then
       [(10 * digit_val c + digit_val c2, r)]
     else []
   | _ => []) ++
  (match l with
   | c :: r => if is_digit_char c then [(digit_val c, r)] else []
   | _ => [])

/-- strptime directive %S (pattern 6[0-1]|[0-5]\d|\d): value 0 to 61. -/
def second_cands (l : List Char) : List (Nat × List Char) :=
  (match l with
   | '6' :: c :: r => if c = '0' || c = '1' then [(60 + digit_val c, r)] else []
   | _ => []) ++
  (match l with
   | c :: c2 :: r =>
     if ('0' ≤ c && c ≤ '5') && is_digit_char c2 then
       [(10 * digit_val c + digit_val c2, r)]
     else []
   | _ => []) ++
  (match l with
   | c :: r => if is_digit_char c then [(digit_val c, r)] else []
   | _ => [])

/-- The character set of Python's regex \s on str patterns
(Py_UNICODE_ISSPACE): tab, LF, VT, FF, CR, the separators 0x1c to 0x1f,
space, NEL 0x85, NBSP 0xa0, OGHAM SPACE MARK, the Unicode space block
0x2000 to 0x200a, LINE and PARAGRAPH SEPARATOR, NARROW NBSP, MEDIUM
MATHEMATICAL SPACE and IDEOGRAPHIC SPACE. -/
def is_py_space (c : Char) : Bool :=
  (9 ≤ c.toNat && c.toNat ≤ 13) || (28 ≤ c.toNat && c.toNat ≤ 31) ||
  c.toNat = 32 || c.toNat = 133 || c.toNat = 160 || c.toNat = 5760 ||
  (8192 ≤ c.toNat && c.toNat ≤ 8202) || c.toNat = 8232 || c.toNat = 8233 ||
  c.toNat = 8239 || c.toNat = 8287 || c.toNat = 12288

/-- Literal whitespace in a strptime format compiles to the regex \s+.
The directive that follows it in the supported formats always starts with a
digit, which is never in \s, so the greedy maximal munch is exact. -/
def skip_ws (l : List Char) : Option (List Char) :=
  if (l.takeWhile is_py_space).isEmpty then none
  else some (l.dropWhile is_py_space)

/-- Gregorian leap-year rule used by datetime.date. -/
def is_leap_year (y : Nat) : Bool :=
  (y % 4 == 0 && y % 100 != 0) || y % 400 == 0

/-- Number of days of month m in year y. -/
def days_in_month (y m : Nat) : Nat :=
  if m = 2 then (if is_leap_year y then 29 else 28)
  else if m = 4 ∨ m = 6 ∨ m = 9 ∨ m = 11 then 30
  else 31

/-- The datetime.date(year, month, day) construction that strptime performs
after the regex match: it raises ValueError (parse failure) unless the day
exists in the month. The regex already bounds month to 1..12, day to 1..31
and year to four digits; year 0000 is additionally rejected. -/
def mk_valid_date (y m d : Nat) : Option Date :=
  if 1 ≤ y ∧ d ≤ days_in_month y m then some ⟨y, m, d⟩ else none

/-- strptime with format "%m/%d/%Y %H:%M": full-string match, then calendar
validation, discarding the time of day. -/
def fmt_mdy_hm (l : List Char) : Option Date :=
  (month_cands l).findSome? fun mc =>
    match mc.2 with
    | '/' :: r2 =>
      (day_cands r2).findSome? fun dc =>
        match dc.2 with
        | '/' :: r4 =>
          (year_cands r4).findSome? fun yc =>
            match skip_ws yc.2 with
            | some r6 =>
              (hour_cands r6).findSome? fun hc =>
                match hc.2 with
                | ':' :: r8 =>
                  (minute_cands r8).findSome? fun nc =>
                    if nc.2.isEmpty then mk_valid_date yc.1 mc.1 dc.1 else none
                | _ => none
            | none => none
        | _ => none
    | _ => none

/-- strptime with format "%m/%d/%Y". -/
def fmt_mdy (l : List Char) : Option Date :=
  (month_cands l).findSome? fun mc =>
    match mc.2 with
    | '/' :: r2 =>
      (day_cands r2).findSome? fun dc =>
        match dc.2 with
        | '/' :: r4 =>
          (year_cands r4).findSome? fun yc =>
            if yc.2.isEmpty then mk_valid_date yc.1 mc.1 dc.1 else none
        | _ => none
    | _ => none

/-- strptime with format "%Y-%m-%d %H:%M:%S". The %S regex admits the leap
seconds 60 and 61, but datetime.strptime then constructs a datetime, whose
constructor requires second in 0..59 and raises ValueError otherwise, so a
parse whose seconds value exceeds 59 fails this format. The hour and minute
directives need no such extra check: their regexes already enforce the
constructor's bounds. No two regex alternatives of a directive consume the
same number of characters, so retrying the remaining candidates after that
rejection cannot change the outcome (a shorter candidate leaves the tail
nonempty), matching CPython, which does not re-run the regex at all. -/
def fmt_ymd_hms (l : List Char) : Option Date :=
  (year_cands l).findSome? fun yc =>
    match yc.2 with
    | '-' :: r2 =>
      (month_cands r2).findSome? fun mc =>
        match mc.2 with
        | '-' :: r4 =>
          (day_cands r4).findSome? fun dc =>
            match skip_ws dc.2 with
            | some r6 =>
              (hour_cands r6).findSome? fun hc =>
                match hc.2 with
                | ':' :: r8 =>
                  (minute_cands r8).findSome? fun nc =>
                    match nc.2 with
                    | ':' :: r10 =>
                      (second_cands r10).findSome? fun sc =>
                        if sc.2.isEmpty && decide (sc.1 ≤ 59) then
                          mk_valid_date yc.1 mc.1 dc.1
                        else none
                    | _ => none
                | _ => none
            | none => none
        | _ => none
    | _ => none

/-- strptime with format "%Y-%m-%d". -/
def fmt_ymd (l : List Char) : Option Date :=
  (year_cands l).findSome? fun yc =>
    match yc.2 with
    | '-' :: r2 =>
      (month_cands r2).findSome? fun mc =>
        match mc.2 with
        | '-' :: r4 =>
          (day_cands r4).findSome? fun dc =>
            if dc.2.isEmpty then mk_valid_date yc.1 mc.1 dc.1 else none
        | _ => none
    | _ => none

/-- The explicit-format loop of core/data_parser.py `DataParser.parse_date`:
the four formats are attempted in the order of the source list and the
first success wins. -/
def try_formats (l : List Char) : Option Date :=
  match fmt_mdy_hm l with
  | some d => some d
  | none =>
    match fmt_mdy l with
    | some d => some d
    | none =>
      match fmt_ymd_hms l with
      | some d => some d
      | none => fmt_ymd l

/-- core/data_parser.py `DataParser.parse_date`. The generic best-effort
parse `pd.to_datetime(date_str).date()` is an external library call and is
embedded as the oracle parameter `generic` (none = that call raises, caught
by the bare except). The function is total: every failure path ends in the
fixed fallback date 2026-01-01. -/
def parse_date (generic : String → Option Date) (date_str : String) : Date :=
  match try_formats date_str.data with
  | some d => d
  | none =>
    match generic date_str with
    | some d => d
    | none => ⟨2026, 1, 1⟩

/-- C6: parse_date is total by construction and never raises; a string on
which all four explicit formats fail and the generic parse also fails maps
to the fixed fallback date 2026-01-01, and a string accepted by the ordered
format list maps to that parse's calendar date (time of day discarded). -/
theorem parse_date_spec (generic : String → Option Date) (date_str : String) :
    (∀ d : Date, try_formats date_str.data = some d →
      parse_date generic date_str = d) ∧
    (try_formats date_str.data = none → generic date_str = none →
      parse_date generic date_str = ⟨2026, 1, 1⟩) := by
  constructor
  · intro d hd
    simp [parse_date, hd]
  · intro h1 h2
    simp [parse_date, h1, h2]

/-- Witness for C6: "1/6/2026 0:00" parses to 2026-01-06 under the first
format, and a non-date string falls back to 2026-01-01. -/
theorem parse_date_spec_witness :
    parse_date (fun _ => none) "1/6/2026 0:00" = ⟨2026, 1, 6⟩ ∧
    parse_date (fun _ => none) "not a date" = ⟨2026, 1, 1⟩ :=
  ⟨(parse_date_spec (fun _ => none) "1/6/2026 0:00").1 ⟨2026, 1, 6⟩ (by decide),
   (parse_date_spec (fun _ => none) "not a date").2 (by decide) rfl⟩

/-- utils/constants.py `ColumnIndex.BEGIN_TIME`. -/
def BEGIN_TIME : Nat := 0

/-- utils/constants.py `ColumnIndex.MANAGED_ELEMENT_NAME`. -/
def MANAGED_ELEMENT_NAME : Nat := 6

/-- utils/constants.py `ColumnIndex.SN_ADDITION_NUM`. -/
def SN_ADDITION_NUM : Nat := 21

/-- utils/constants.py `ColumnIndex.SN_ADDITION_DEN`. -/
def SN_ADDITION_DEN : Nat := 22

/-- utils/constants.py `ColumnIndex.ABNORMAL_SN_RELEASE_NUM`. -/
def ABNORMAL_SN_RELEASE_NUM : Nat := 24

/-- utils/constants.py `ColumnIndex.ABNORMAL_SN_RELEASE_DEN`. -/
def ABNORMAL_SN_RELEASE_DEN : Nat := 25

/-- utils/constants.py `ColumnIndex.DL_SE_MAPPING_NUM`. -/
def DL_SE_MAPPING_NUM : Nat := 35

/-- utils/constants.py `ColumnIndex.DL_SE_MAPPING_DEN`. -/
def DL_SE_MAPPING_DEN : Nat := 36

/-- utils/constants.py `ColumnIndex.DL_UE_THROUGHPUT_NUM`. -/
def DL_UE_THROUGHPUT_NUM : Nat := 90

/-- utils/constants.py `ColumnIndex.UL_UE_THROUGHPUT_NUM`. -/
def UL_UE_THROUGHPUT_NUM : Nat := 91

/-- utils/constants.py `ColumnIndex.DL_UE_THROUGHPUT_DEN`. -/
def DL_UE_THROUGHPUT_DEN : Nat := 121

/-- utils/constants.py `ColumnIndex.UL_UE_THROUGHPUT_DEN`. -/
def UL_UE_THROUGHPUT_DEN : Nat := 122

/-- A row after DataParser.add_parsed_columns: the original cells plus the
derived TOWERID and DATE columns. -/
structure ParsedRow where
  cells : List Cell
  tower_id : String
  date : Date
  deriving DecidableEq

/-- core/data_parser.py `DataParser.add_parsed_columns`: a fresh table with
TOWERID extracted from the element-name column and DATE parsed from the
begin-time column (str() is applied to the cell in both source functions). -/
def add_parsed_columns (generic : String → Option Date)
    (df : List (List Cell)) : List ParsedRow :=
  df.map fun row =>
    ⟨row,
     extract_tower_id (cell_to_str (row.getD MANAGED_ELEMENT_NAME Cell.missing)),
     parse_date generic (cell_to_str (row.getD BEGIN_TIME Cell.missing))⟩

/-- Contribution of one cell to a pandas column sum with the default
skipna = True: missing values contribute zero. The summed columns have been
cleaned, so they hold only numbers and missing markers; a pandas sum over
such a column (even an all-missing one, where Series.sum gives 0.0) is a
plain float, never NaN. -/
def cell_num : Cell → ℚ
  | Cell.num q => q
  | _ => 0

/-- The per-group column sum `group.iloc[:, i].sum()` of
core/kpi_calculator.py. -/
def col_sum (i : Nat) (rows : List ParsedRow) : ℚ :=
  (rows.map (fun r => cell_num (r.cells.getD i Cell.missing))).sum

/-- core/kpi_calculator.py `KPICalculator.calculate_kpis`: sum each
numerator and denominator column over the group, then apply safe_divide
with the metric's scale (100 for the two percentage KPIs, the default 1
for the rest). The sums are plain floats, hence wrapped in some. -/
def calculate_kpis (group : List ParsedRow) : KPIValues :=
  ⟨safe_divide (some (col_sum SN_ADDITION_NUM group))
     (some (col_sum SN_ADDITION_DEN group)) 100,
   safe_divide (some (col_sum ABNORMAL_SN_RELEASE_NUM group))
     (some (col_sum ABNORMAL_SN_RELEASE_DEN group)) 100,
   safe_divide (some (col_sum DL_UE_THROUGHPUT_NUM group))
     (some (col_sum DL_UE_THROUGHPUT_DEN group)) 1,
   safe_divide (some (col_sum UL_UE_THROUGHPUT_NUM group))
     (some (col_sum UL_UE_THROUGHPUT_DEN group)) 1,
   safe_divide (some (col_sum DL_SE_MAPPING_NUM group))
     (some (col_sum DL_SE_MAPPING_DEN group)) 1⟩

/-- The Group Key of gui/main_window.py: groupby(["TOWERID", "DATE"]). -/
def row_key (r : ParsedRow) : String × Date := (r.tower_id, r.date)

/-- The distinct group keys in first-occurrence order. pandas groupby sorts
the keys for display; none of the properties proved here depend on the
order of the groups, only on their contents. -/
def group_keys (rows : List ParsedRow) : List (String × Date) :=
  rows.foldl
    (fun acc r => if acc.contains (row_key r) then acc else acc ++ [row_key r]) []

/-- The rows of one aggregation bucket. -/
def rows_for_key (k : String × Date) (rows : List ParsedRow) : List ParsedRow :=
  rows.filter (fun r => row_key r == k)

/-- The grouped loop of `ProcessingThread.run` (steps 4 of the pipeline):
one TowerReport per group key, from calculate_kpis and evaluate_all. -/
def process_reports (rows : List ParsedRow) : List TowerReport :=
  (group_keys rows).map fun k =>
    ⟨k.1, k.2, calculate_kpis (rows_for_key k rows),
     (evaluate_all (calculate_kpis (rows_for_key k rows))).1,
     (evaluate_all (calculate_kpis (rows_for_key k rows))).2⟩

/-- The numeric_cols list built in gui/main_window.py `ProcessingThread.run`. -/
def numeric_cols : List Nat :=
  [SN_ADDITION_NUM, SN_ADDITION_DEN,
   ABNORMAL_SN_RELEASE_NUM, ABNORMAL_SN_RELEASE_DEN,
   DL_UE_THROUGHPUT_NUM, DL_UE_THROUGHPUT_DEN,
   UL_UE_THROUGHPUT_NUM, UL_UE_THROUGHPUT_DEN,
   DL_SE_MAPPING_NUM, DL_SE_MAPPING_DEN]

/-- Steps 2 to 4 of `ProcessingThread.run` on an already loaded table:
clean the numeric columns, derive TOWERID and DATE, group and build the
Tower Reports. The table's column count (pandas len(df.columns)) is the
length of its first row. -/
def process_dataframe (generic : String → Option Date)
    (df : List (List Cell)) : List TowerReport :=
  process_reports
    (add_parsed_columns generic (clean_dataframe (df.headD []).length df numeric_cols))

/-- C5: permuting the input rows leaves every per-group column sum, and
therefore every group's KPI Values, unchanged (sums over a filtered
permutation are equal). -/
theorem grouping_perm_invariant (l1 l2 : List ParsedRow) (hp : l1.Perm l2)
    (k : String × Date) :
    (∀ i : Nat, col_sum i (rows_for_key k l1) = col_sum i (rows_for_key k l2)) ∧
    calculate_kpis (rows_for_key k l1) = calculate_kpis (rows_for_key k l2) := by
  have hfil : (rows_for_key k l1).Perm (rows_for_key k l2) :=
    hp.filter (fun r => row_key r == k)
  have hsum : ∀ i : Nat,
      col_sum i (rows_for_key k l1) = col_sum i (rows_for_key k l2) := by
    intro i
    unfold col_sum
    exact List.Perm.sum_eq (hfil.map _)
  refine ⟨hsum, ?_⟩
  unfold calculate_kpis
  rw [hsum SN_ADDITION_NUM, hsum SN_ADDITION_DEN,
      hsum ABNORMAL_SN_RELEASE_NUM, hsum ABNORMAL_SN_RELEASE_DEN,
      hsum DL_UE_THROUGHPUT_NUM, hsum DL_UE_THROUGHPUT_DEN,
      hsum UL_UE_THROUGHPUT_NUM, hsum UL_UE_THROUGHPUT_DEN,
      hsum DL_SE_MAPPING_NUM, hsum DL_SE_MAPPING_DEN]

/-- Witness for C5: swapping two rows of one bucket leaves its KPI Values
unchanged. -/
theorem grouping_perm_invariant_witness :
    calculate_kpis (rows_for_key ("A-B-C-1", ⟨2026, 1, 6⟩)
        [⟨[Cell.num 1], "A-B-C-1", ⟨2026, 1, 6⟩⟩,
         ⟨[Cell.num 2], "A-B-C-1", ⟨2026, 1, 6⟩⟩]) =
      calculate_kpis (rows_for_key ("A-B-C-1", ⟨2026, 1, 6⟩)
        [⟨[Cell.num 2], "A-B-C-1", ⟨2026, 1, 6⟩⟩,
         ⟨[Cell.num 1], "A-B-C-1", ⟨2026, 1, 6⟩⟩]) :=
  (grouping_perm_invariant _ _ (List.Perm.swap _ _ _) _).2

/-- One synthetic CSV row of the end-to-end scenario: begin-time
"1/6/2026 0:00" at column 0, element name "NR_SUM-SU-AKR-0011_DU" at
column 6, the given strings in the SN_ADDITION and ABNORMAL_SN_RELEASE
numerator/denominator slots, and "0" everywhere else (123 columns). -/
def scenario_row (sn_num sn_den ab_num ab_den : String) : List Cell :=
  (List.range 123).map fun i =>
    if i = BEGIN_TIME then Cell.str "1/6/2026 0:00"
    else if i = MANAGED_ELEMENT_NAME then Cell.str "NR_SUM-SU-AKR-0011_DU"
    else if i = SN_ADDITION_NUM then Cell.str sn_num
    else if i = SN_ADDITION_DEN then Cell.str sn_den
    else if i = ABNORMAL_SN_RELEASE_NUM then Cell.str ab_num
    else if i = ABNORMAL_SN_RELEASE_DEN then Cell.str ab_den
    else Cell.str "0"

/-- The cleaned image of scenario_row: the ten designated numeric columns
coerced to numbers, every other column untouched. -/
def scenario_row_clean (sn_num sn_den ab_num ab_den : ℚ) : List Cell :=
  (List.range 123).map fun i =>
    if i = BEGIN_TIME then Cell.str "1/6/2026 0:00"
    else if i = MANAGED_ELEMENT_NAME then Cell.str "NR_SUM-SU-AKR-0011_DU"
    else if i = SN_ADDITION_NUM then Cell.num sn_num
    else if i = SN_ADDITION_DEN then Cell.num sn_den
    else if i = ABNORMAL_SN_RELEASE_NUM then Cell.num ab_num
    else if i = ABNORMAL_SN_RELEASE_DEN then Cell.num ab_den
    else if i = DL_SE_MAPPING_NUM ∨ i = DL_SE_MAPPING_DEN ∨
            i = DL_UE_THROUGHPUT_NUM ∨ i = UL_UE_THROUGHPUT_NUM ∨
            i = DL_UE_THROUGHPUT_DEN ∨ i = UL_UE_THROUGHPUT_DEN then Cell.num 0
    else Cell.str "0"

set_option maxRecDepth 8000

/-- C4: the two synthetic rows produce exactly one Tower Report, keyed
(SUM-SU-AKR-0011, 2026-01-06), with SgNB Add Success Rate 100.0 PASS,
SgNB Drop Rate 1.0 PASS, the remaining three metrics missing (their
denominator sums are zero) hence N/A, and overall PASS; the generic date
parse is irrelevant because the first explicit format accepts the
begin-time string. -/
theorem pipeline_scenario (generic : String → Option Date) :
    process_dataframe generic
        [scenario_row "100" "100" "1" "100",
         scenario_row "100" "100" "1" "100"] =
      [⟨"SUM-SU-AKR-0011", ⟨2026, 1, 6⟩,
        ⟨some 100, some 1, none, none, none⟩,
        ⟨"PASS", "PASS", "N/A", "N/A", "N/A"⟩, "PASS"⟩] := by
  have hdate : parse_date generic "1/6/2026 0:00" = (⟨2026, 1, 6⟩ : Date) := by
    unfold parse_date
    rw [show try_formats ("1/6/2026 0:00").data = some ⟨2026, 1, 6⟩ from by decide]
  have hlen :
      (([scenario_row "100" "100" "1" "100",
         scenario_row "100" "100" "1" "100"]).headD []).length = 123 := by decide
  have hrow : clean_row numeric_cols 123 0 (scenario_row "100" "100" "1" "100") =
      scenario_row_clean 100 100 1 100 := by decide
  have hext : extract_tower_id (cell_to_str
      ((scenario_row_clean 100 100 1 100).getD MANAGED_ELEMENT_NAME Cell.missing)) =
      "SUM-SU-AKR-0011" := by decide
  have hbt : cell_to_str
      ((scenario_row_clean 100 100 1 100).getD BEGIN_TIME Cell.missing) =
      "1/6/2026 0:00" := by decide
  have hA : add_parsed_columns generic
      (clean_dataframe 123
        [scenario_row "100" "100" "1" "100", scenario_row "100" "100" "1" "100"]
        numeric_cols) =
      [⟨scenario_row_clean 100 100 1 100, "SUM-SU-AKR-0011", ⟨2026, 1, 6⟩⟩,
       ⟨scenario_row_clean 100 100 1 100, "SUM-SU-AKR-0011", ⟨2026, 1, 6⟩⟩] := by
    unfold clean_dataframe add_parsed_columns
    simp only [List.map_cons, List.map_nil]
    rw [hrow, hbt, hext, hdate]
  have hkeys : group_keys
      [⟨scenario_row_clean 100 100 1 100, "SUM-SU-AKR-0011", ⟨2026, 1, 6⟩⟩,
       ⟨scenario_row_clean 100 100 1 100, "SUM-SU-AKR-0011", ⟨2026, 1, 6⟩⟩] =
      [("SUM-SU-AKR-0011", ⟨2026, 1, 6⟩)] := by decide
  have hfil : rows_for_key ("SUM-SU-AKR-0011", ⟨2026, 1, 6⟩)
      [⟨scenario_row_clean 100 100 1 100, "SUM-SU-AKR-0011", ⟨2026, 1, 6⟩⟩,
       ⟨scenario_row_clean 100 100 1 100, "SUM-SU-AKR-0011", ⟨2026, 1, 6⟩⟩] =
      [⟨scenario_row_clean 100 100 1 100, "SUM-SU-AKR-0011", ⟨2026, 1, 6⟩⟩,
       ⟨scenario_row_clean 100 100 1 100, "SUM-SU-AKR-0011", ⟨2026, 1, 6⟩⟩] := by
    decide
  have h21 : cell_num ((scenario_row_clean 100 100 1 100).getD
      SN_ADDITION_NUM Cell.missing) = 100 := by decide
  have h22 : cell_num ((scenario_row_clean 100 100 1 100).getD
      SN_ADDITION_DEN Cell.missing) = 100 := by decide
  have h24 : cell_num ((scenario_row_clean 100 100 1 100).getD
      ABNORMAL_SN_RELEASE_NUM Cell.missing) = 1 := by decide
  have h25 : cell_num ((scenario_row_clean 100 100 1 100).getD
      ABNORMAL_SN_RELEASE_DEN Cell.missing) = 100 := by decide
  have h35 : cell_num ((scenario_row_clean 100 100 1 100).getD
      DL_SE_MAPPING_NUM Cell.missing) = 0 := by decide
  have h36 : cell_num ((scenario_row_clean 100 100 1 100).getD
      DL_SE_MAPPING_DEN Cell.missing) = 0 := by decide
  have h90 : cell_num ((scenario_row_clean 100 100 1 100).getD
      DL_UE_THROUGHPUT_NUM Cell.missing) = 0 := by decide
  have h91 : cell_num ((scenario_row_clean 100 100 1 100).getD
      UL_UE_THROUGHPUT_NUM Cell.missing) = 0 := by decide
  have h121 : cell_num ((scenario_row_clean 100 100 1 100).getD
      DL_UE_THROUGHPUT_DEN Cell.missing) = 0 := by decide
  have h122 : cell_num ((scenario_row_clean 100 100 1 100).getD
      UL_UE_THROUGHPUT_DEN Cell.missing) = 0 := by decide
  have hkpi : calculate_kpis
      [⟨scenario_row_clean 100 100 1 100, "SUM-SU-AKR-0011", ⟨2026, 1, 6⟩⟩,
       ⟨scenario_row_clean 100 100 1 100, "SUM-SU-AKR-0011", ⟨2026, 1, 6⟩⟩] =
      ⟨some 100, some 1, none, none, none⟩ := by
    unfold calculate_kpis col_sum
    simp only [List.map_cons, List.map_nil, List.sum_cons, List.sum_nil,
               h21, h22, h24, h25, h35, h36, h90, h91, h121, h122]
    norm_num [safe_divide]
  have heval : evaluate_all ⟨some 100, some 1, none, none, none⟩ =
      (⟨"PASS", "PASS", "N/A", "N/A", "N/A"⟩, "PASS") := by decide
  unfold process_dataframe
  rw [hlen, hA]
  unfold process_reports
  rw [hkeys]
  simp only [List.map_cons, List.map_nil]
  rw [hfil, hkpi, heval]
